import Mathlib

/-!
Verification of the crypto-tqqq rebalancing engine.

Shallow embedding of the TypeScript sources:
  * `src/services/strategy.ts` — `StrategyService` (target/delta calculator,
    order execution, trade log creation, `executeRebalancing`);
  * `src/scheduler.ts` — daily scheduler (`shouldExecuteNow`, `runRebalancing`
    tick loop, startup catch-up in `startScheduler`);
  * `src/api/okx-client.ts` — `getPosition` / `getPositionContracts`;
  * `src/config/index.ts` — the trading configuration record.

Modelling conventions.  JavaScript numbers are modelled as exact rationals
extended with the IEEE special values `+Infinity`, `-Infinity` and `NaN`
(type `JSN` below); double-precision representation error is not modelled,
but the special-value propagation rules of JS arithmetic (division by zero,
NaN comparisons, `Math.round` on non-finite values) are.  `Math.round`
rounds halves toward positive infinity, exactly as in JS.  Asynchronous
fetches and order placement are modelled by passing their outcomes
(`Except String _`) into the rebalancing step; `Promise.all` fail-fast is
modelled by taking the first error in argument order.  The scheduler's
`setInterval` loop is modelled as a sequential fold over a list of ticks,
each tick carrying the UTC date (as a day index) and the UTC hour/minute
read from the wall clock.
-/

/-- JavaScript number: an exact rational, or one of the IEEE special
values. -/
inductive JSN where
  | fin (q : ℚ)
  | posInf
  | negInf
  | nan
deriving DecidableEq, Repr

namespace JSN

/-- JS multiplication with IEEE special-value rules. -/
def mul : JSN → JSN → JSN
  | fin a, fin b => fin (a * b)
  | fin a, posInf => if a = 0 then nan else if 0 < a then posInf else negInf
  | fin a, negInf => if a = 0 then nan else if 0 < a then negInf else posInf
  | posInf, fin b => if b = 0 then nan else if 0 < b then posInf else negInf
  | negInf, fin b => if b = 0 then nan else if 0 < b then negInf else posInf
  | posInf, posInf => posInf
  | posInf, negInf => negInf
  | negInf, posInf => negInf
  | negInf, negInf => posInf
  | nan, _ => nan
  | _, nan => nan

/-- JS division with IEEE special-value rules (our single zero is `+0`). -/
def div : JSN → JSN → JSN
  | fin a, fin b =>
      if b = 0 then (if a = 0 then nan else if 0 < a then posInf else negInf)
      else fin (a / b)
  | fin _, posInf => fin 0
  | fin _, negInf => fin 0
  | posInf, fin b => if 0 ≤ b then posInf else negInf
  | negInf, fin b => if 0 ≤ b then negInf else posInf
  | posInf, posInf => nan
  | posInf, negInf => nan
  | negInf, posInf => nan
  | negInf, negInf => nan
  | nan, _ => nan
  | _, nan => nan

/-- JS subtraction with IEEE special-value rules. -/
def sub : JSN → JSN → JSN
  | fin a, fin b => fin (a - b)
  | fin _, posInf => negInf
  | fin _, negInf => posInf
  | posInf, fin _ => posInf
  | negInf, fin _ => negInf
  | posInf, posInf => nan
  | posInf, negInf => posInf
  | negInf, posInf => negInf
  | negInf, negInf => nan
  | nan, _ => nan
  | _, nan => nan

/-- `Math.abs`. -/
def jabs : JSN → JSN
  | fin a => fin (if a < 0 then -a else a)
  | posInf => posInf
  | negInf => posInf
  | nan => nan

/-- `Math.round`: rounds to the nearest integer, halves toward `+∞`;
the identity on non-finite values. -/
def jround : JSN → JSN
  | fin a => fin (⌊a + 1 / 2⌋ : ℤ)
  | posInf => posInf
  | negInf => negInf
  | nan => nan

/-- JS `>=` comparison: `false` whenever an operand is NaN. -/
def jge : JSN → JSN → Bool
  | fin a, fin b => decide (b ≤ a)
  | fin _, posInf => false
  | fin _, negInf => true
  | posInf, fin _ => true
  | negInf, fin _ => false
  | posInf, posInf => true
  | posInf, negInf => true
  | negInf, posInf => false
  | negInf, negInf => true
  | nan, _ => false
  | _, nan => false

/-- JS `>` comparison: `false` whenever an operand is NaN. -/
def jgt : JSN → JSN → Bool
  | fin a, fin b => decide (b < a)
  | fin _, posInf => false
  | fin _, negInf => true
  | posInf, fin _ => true
  | negInf, fin _ => false
  | posInf, posInf => false
  | posInf, negInf => true
  | negInf, posInf => false
  | negInf, negInf => false
  | nan, _ => false
  | _, nan => false

end JSN

/-- The `config.trading` record of `src/config/index.ts` (the fields the
rebalancing engine reads). -/
structure TradingConfig where
  leverageMultiplier : ℚ
  minAdjustmentSize : ℚ
  dryRun : Bool
deriving DecidableEq, Repr

/-- Rounding to four decimal places as performed by
`Math.round(x * 10000) / 10000` on a finite value: halves toward `+∞`. -/
def round4 (q : ℚ) : ℚ := (⌊q * 10000 + 1 / 2⌋ : ℤ) / 10000

/-- Rounding to four decimal places with round-half-AWAY-FROM-ZERO
semantics, as worded in the spec (the comparison definition for the
rounding-semantics claim; the source uses JS `Math.round`). -/
def round4afz (q : ℚ) : ℚ :=
  if 0 ≤ q then (⌊q * 10000 + 1 / 2⌋ : ℤ) / 10000
  else -((⌊-q * 10000 + 1 / 2⌋ : ℤ) / 10000)

/-- `StrategyService.calculateTargetPosition`:
`Math.round((equity * leverageMultiplier / price) * 10000) / 10000`. -/
def calculateTargetPosition (cfg : TradingConfig) (equity assetPrice : JSN) : JSN :=
  let targetPosition := (equity.mul (JSN.fin cfg.leverageMultiplier)).div assetPrice
  ((targetPosition.mul (JSN.fin 10000)).jround).div (JSN.fin 10000)

/-- The trade action (`'buy' | 'sell' | 'hold'`). -/
inductive TradeAction where
  | buy
  | sell
  | hold
deriving DecidableEq, Repr

/-- Return value of `StrategyService.calculatePositionDelta`. -/
structure DeltaDecision where
  delta : JSN
  needsAdjustment : Bool
  action : TradeAction
deriving DecidableEq, Repr

/-- `StrategyService.calculatePositionDelta`: the adjustment test uses the
UNROUNDED difference, the returned `delta` field is rounded to four
decimals. -/
def calculatePositionDelta (cfg : TradingConfig) (currentPosition targetPosition : JSN) :
    DeltaDecision :=
  let delta := targetPosition.sub currentPosition
  let absDelta := delta.jabs
  let needsAdjustment := absDelta.jge (JSN.fin cfg.minAdjustmentSize)
  let action : TradeAction :=
    if !needsAdjustment then .hold
    else if delta.jgt (JSN.fin 0) then .buy
    else .sell
  { delta := ((delta.mul (JSN.fin 10000)).jround).div (JSN.fin 10000)
    needsAdjustment := needsAdjustment
    action := action }

-- Scenario sanity checks (spec §8, Scenarios A–C).
example :
    calculateTargetPosition ⟨3, 1/100, true⟩ (JSN.fin 12000) (JSN.fin 2100)
      = JSN.fin (171429 / 10000) := by
  norm_num [calculateTargetPosition, JSN.mul, JSN.div, JSN.jround]

example :
    (calculatePositionDelta ⟨3, 1/100, true⟩ (JSN.fin 15) (JSN.fin (171429 / 10000))).action
      = TradeAction.buy := by
  norm_num [calculatePositionDelta, JSN.sub, JSN.jabs, JSN.jge, JSN.jgt]

example :
    (calculatePositionDelta ⟨3, 1/100, true⟩ (JSN.fin (15005/10000)) (JSN.fin (15/10))).action
      = TradeAction.hold := by
  norm_num [calculatePositionDelta, JSN.sub, JSN.jabs, JSN.jge, JSN.jgt]

/-- The `TradeLog` record built by `StrategyService.createTradeLog`
(timestamp omitted: it is wall-clock metadata not touched by any claim). -/
structure TradeLog where
  assetPrice : JSN
  accountEquity : JSN
  currentPosition : JSN
  targetPosition : JSN
  delta : JSN
  action : TradeAction
  orderSize : Option JSN
  orderId : Option String
  success : Bool
  error : Option String
deriving DecidableEq, Repr

/-- `StrategyService.createTradeLog`: `success` defaults to `true`
(`success ?? true`). -/
def createTradeLog (assetPrice accountEquity currentPosition targetPosition delta : JSN)
    (action : TradeAction) (orderSize : Option JSN) (orderId : Option String)
    (success : Option Bool) (error : Option String) : TradeLog :=
  { assetPrice := assetPrice
    accountEquity := accountEquity
    currentPosition := currentPosition
    targetPosition := targetPosition
    delta := delta
    action := action
    orderSize := orderSize
    orderId := orderId
    success := success.getD true
    error := error }

/-- `RebalanceResult` as returned by `StrategyService.executeRebalancing`. -/
structure RebalanceResult where
  success : Bool
  tradeLog : TradeLog
  error : Option String
deriving DecidableEq, Repr

/-- The order request handed to `OKXClient.placeOrder` by
`StrategyService.executePositionAdjustment` (instrument, margin mode,
order type and position side are constants in the source). -/
structure PlacedOrder where
  side : TradeAction
  sz : JSN
deriving DecidableEq, Repr

/-- Outcome record of `StrategyService.executePositionAdjustment`. -/
structure OrderResult where
  success : Bool
  orderId : Option String
  error : Option String
deriving DecidableEq, Repr

/-- `StrategyService.executePositionAdjustment`: places one market order and
catches a `placeOrder` failure into a `{success := false, error}` result.
The outcome of the (asynchronous, fallible) exchange call is passed in as
`placeOrderR`.  The returned list records the order requests actually
submitted to `placeOrder`. -/
def executePositionAdjustment (action : TradeAction) (orderSize : JSN)
    (placeOrderR : Except String String) : OrderResult × List PlacedOrder :=
  match placeOrderR with
  | .ok ordId => ({ success := true, orderId := some ordId, error := none },
      [{ side := action, sz := orderSize }])
  | .error msg => ({ success := false, orderId := none, error := some msg },
      [{ side := action, sz := orderSize }])

/-- `StrategyService.executeRebalancing`.  The three concurrent fetches and
the exchange order call are passed in as outcomes; `Promise.all` fail-fast
is modelled by taking the first error in argument order.  Besides the
`RebalanceResult` it returns the list of orders submitted to `placeOrder`
during the invocation (empty when `placeOrder` was never called). -/
def executeRebalancing (cfg : TradingConfig)
    (equityR priceR positionR : Except String JSN)
    (placeOrderR : Except String String) : RebalanceResult × List PlacedOrder :=
  match equityR, priceR, positionR with
  | .error msg, _, _ =>
      ({ success := false
         tradeLog := createTradeLog (.fin 0) (.fin 0) (.fin 0) (.fin 0) (.fin 0) .hold
           none none (some false) (some msg)
         error := some msg }, [])
  | .ok _, .error msg, _ =>
      ({ success := false
         tradeLog := createTradeLog (.fin 0) (.fin 0) (.fin 0) (.fin 0) (.fin 0) .hold
           none none (some false) (some msg)
         error := some msg }, [])
  | .ok _, .ok _, .error msg =>
      ({ success := false
         tradeLog := createTradeLog (.fin 0) (.fin 0) (.fin 0) (.fin 0) (.fin 0) .hold
           none none (some false) (some msg)
         error := some msg }, [])
  | .ok accountEquity, .ok assetPrice, .ok currentPosition =>
      let targetPosition := calculateTargetPosition cfg accountEquity assetPrice
      let d := calculatePositionDelta cfg currentPosition targetPosition
      let adj : OrderResult × List PlacedOrder :=
        if d.needsAdjustment ∧ d.action ≠ .hold then
          executePositionAdjustment d.action d.delta.jabs placeOrderR
        else ({ success := true, orderId := none, error := none }, [])
      let orderResult := adj.1
      let tradeLog := createTradeLog assetPrice accountEquity currentPosition
        targetPosition d.delta d.action
        (if d.needsAdjustment then some d.delta.jabs else none)
        orderResult.orderId (some orderResult.success) orderResult.error
      ({ success := orderResult.success
         tradeLog := tradeLog
         error := orderResult.error }, adj.2)

/-!  Scheduler (`src/scheduler.ts`).  A UTC calendar date is a day index
(`Nat`); a tick carries the date and the UTC hour/minute read from the
wall clock when the `setInterval` callback fires.  The module-level
`lastExecutionDate` is the scheduler state. -/

/-- One firing of the scheduler's interval callback: the wall-clock UTC
date, hour and minute at that moment. -/
structure Tick where
  date : Nat
  hour : Nat
  minute : Nat
deriving DecidableEq, Repr

/-- The time comparison
`currentHour > targetHour || (currentHour === targetHour && currentMinute >= targetMinute)`
shared by `shouldExecuteNow` and `startScheduler`. -/
def timeReached (targetHour targetMinute hour minute : Nat) : Bool :=
  (targetHour < hour) || (targetHour == hour && targetMinute ≤ minute)

/-- `shouldExecuteNow`: skip if today's date equals the last-executed
date, otherwise fire once the wall clock is at or past the target time. -/
def shouldExecuteNow (lastExecutionDate : Option Nat) (targetHour targetMinute : Nat)
    (t : Tick) : Bool :=
  if lastExecutionDate = some t.date then false
  else timeReached targetHour targetMinute t.hour t.minute

/-- One pass of the scheduler loop body: if `shouldExecuteNow`, run the
rebalancing (`runRebalancing` marks today as executed after the run) and
return the new state together with whether the Orchestrator was invoked. -/
def schedulerTick (targetHour targetMinute : Nat) (lastExecutionDate : Option Nat)
    (t : Tick) : Option Nat × Bool :=
  if shouldExecuteNow lastExecutionDate targetHour targetMinute t then
    (some t.date, true)
  else
    (lastExecutionDate, false)

/-- Number of Orchestrator invocations over a sequence of ticks, folding
the scheduler state through `schedulerTick`. -/
def executionCount (targetHour targetMinute : Nat) :
    Option Nat → List Tick → Nat
  | _, [] => 0
  | last, t :: ts =>
      let step := schedulerTick targetHour targetMinute last t
      (if step.2 then 1 else 0) + executionCount targetHour targetMinute step.1 ts

/-- The startup catch-up assignment in `startScheduler`: if the process
starts at or after today's target time, today is recorded as already
executed before the first tick; otherwise the state stays `none`. -/
def startupLastExecutionDate (targetHour targetMinute : Nat)
    (startDate startHour startMinute : Nat) : Option Nat :=
  if timeReached targetHour targetMinute startHour startMinute then some startDate
  else none

/-!  OKX client position lookup (`src/api/okx-client.ts`).  Numeric string
fields (`pos`, `ctVal`) are modelled by their parsed values. -/

/-- One entry of the positions endpoint response, with `pos` holding the
parsed contract count. -/
structure PositionEntry where
  instId : String
  posSide : String
  instType : String
  pos : ℚ
deriving DecidableEq, Repr

/-- Instrument metadata, with `ctVal` holding the parsed per-contract
base-currency value. -/
structure InstrumentInfo where
  ctVal : ℚ
deriving DecidableEq, Repr

/-- `OKXClient.getPosition`: converts a swap position's contract count to
base currency using the instrument's `ctVal`; if the (fallible, public)
instrument-metadata lookup fails, falls back to the raw contract count.
`positions` is the successful positions-endpoint response and
`instrumentR` the outcome of `getInstrument`. -/
def getPosition (instId : String) (positions : List PositionEntry)
    (instrumentR : Except String InstrumentInfo) : ℚ :=
  if positions.isEmpty then 0
  else
    match positions.find? (fun p => p.instId == instId && p.posSide == "long") with
    | none => 0
    | some position =>
        let contractsHeld := position.pos
        if position.instType == "SWAP" then
          match instrumentR with
          | .ok instrumentInfo => contractsHeld * instrumentInfo.ctVal
          | .error _ => contractsHeld
        else contractsHeld

/-- `OKXClient.getPositionContracts`: the raw contract count of the
matching long position, `0` if there is none. -/
def getPositionContracts (instId : String) (positions : List PositionEntry) : ℚ :=
  if positions.isEmpty then 0
  else
    match positions.find? (fun p => p.instId == instId && p.posSide == "long") with
    | none => 0
    | some position => position.pos

/-!  Helper lemmas about the calculator on finite inputs. -/

theorem ite_neg_eq_abs (a : ℚ) : (if a < 0 then -a else a) = |a| := by
  rcases lt_or_le a 0 with h | h
  · simp [h, abs_of_neg h]
  · simp [not_lt.mpr h, abs_of_nonneg h]

theorem calculateTargetPosition_fin (cfg : TradingConfig) (e p : ℚ) (hp : p ≠ 0) :
    calculateTargetPosition cfg (.fin e) (.fin p)
      = .fin (round4 (e * cfg.leverageMultiplier / p)) := by
  simp [calculateTargetPosition, JSN.mul, JSN.div, JSN.jround, round4, hp]

theorem calculatePositionDelta_delta (cfg : TradingConfig) (c t : ℚ) :
    (calculatePositionDelta cfg (.fin c) (.fin t)).delta = .fin (round4 (t - c)) := by
  simp [calculatePositionDelta, JSN.sub, JSN.mul, JSN.jround, JSN.div, round4]

theorem calculatePositionDelta_action_hold (cfg : TradingConfig) (c t : ℚ) :
    (calculatePositionDelta cfg (.fin c) (.fin t)).action = .hold
      ↔ |t - c| < cfg.minAdjustmentSize := by
  simp only [calculatePositionDelta, JSN.sub, JSN.jabs, JSN.jge, JSN.jgt, ite_neg_eq_abs]
  split_ifs <;> simp_all

theorem calculatePositionDelta_action_buy (cfg : TradingConfig) (c t : ℚ) :
    (calculatePositionDelta cfg (.fin c) (.fin t)).action = .buy
      ↔ cfg.minAdjustmentSize ≤ |t - c| ∧ 0 < t - c := by
  simp only [calculatePositionDelta, JSN.sub, JSN.jabs, JSN.jge, JSN.jgt, ite_neg_eq_abs]
  split_ifs <;> simp_all

theorem calculatePositionDelta_action_sell (cfg : TradingConfig) (c t : ℚ) :
    (calculatePositionDelta cfg (.fin c) (.fin t)).action = .sell
      ↔ cfg.minAdjustmentSize ≤ |t - c| ∧ t - c ≤ 0 := by
  simp only [calculatePositionDelta, JSN.sub, JSN.jabs, JSN.jge, JSN.jgt, ite_neg_eq_abs]
  split_ifs <;> simp_all

theorem round4_nonneg (q : ℚ) (h : 0 ≤ q) : 0 ≤ round4 q := by
  unfold round4
  have hf : (0 : ℤ) ≤ ⌊q * 10000 + 1 / 2⌋ := by
    apply Int.le_floor.mpr
    push_cast
    nlinarith
  have : (0 : ℚ) ≤ (⌊q * 10000 + 1 / 2⌋ : ℤ) := by exact_mod_cast hf
  positivity

theorem round4_four_decimal (k : ℤ) : round4 ((k : ℚ) / 10000) = (k : ℚ) / 10000 := by
  unfold round4
  have h1 : (k : ℚ) / 10000 * 10000 + 1 / 2 = (k : ℚ) + 1 / 2 := by
    field_simp
  have h2 : ⌊(k : ℚ) + 1 / 2⌋ = k := by
    rw [Int.floor_int_add]
    norm_num
  rw [h1, h2]

theorem round4_den (q : ℚ) : round4 q = ((⌊q * 10000 + 1 / 2⌋ : ℤ) : ℚ) / 10000 := rfl

/-- C3 counterexample: the code's rounding is JS `Math.round`
(halves toward `+∞`), not round-half-away-from-zero.  With
`current = 0.00005` and `target = 0` the code's returned `delta` is `0`,
while round-half-away-from-zero of `target − current` is `-0.0001`. -/
theorem C3_counterexample :
    (calculatePositionDelta ⟨3, 1/100, true⟩ (JSN.fin (1/20000)) (JSN.fin 0)).delta
      = JSN.fin 0
    ∧ round4afz ((0 : ℚ) - 1/20000) = -(1/10000)
    ∧ (0 : ℚ) ≠ -(1/10000) := by
  refine ⟨?_, ?_, by norm_num⟩
  · rw [calculatePositionDelta_delta]
    norm_num [round4]
  · norm_num [round4afz]

/-- C3 (amended): for every equity ≥ 0, price > 0, leverage > 0 and
current position, `target = round4(equity·leverage/price)` and the
returned `delta = round4(target − current)`, where `round4` rounds to 4
decimal places with JS `Math.round` (round-half-toward-+∞) semantics
applied identically to both; the target is non-negative, and whenever the
current position is itself a 4-decimal quantity the rounded delta equals
`target − current` exactly. -/
theorem C3_round4_halfup_target_delta (cfg : TradingConfig) (e p c : ℚ)
    (he : 0 ≤ e) (hp : 0 < p) (hL : 0 < cfg.leverageMultiplier) :
    calculateTargetPosition cfg (.fin e) (.fin p)
      = .fin (round4 (e * cfg.leverageMultiplier / p))
    ∧ 0 ≤ round4 (e * cfg.leverageMultiplier / p)
    ∧ (calculatePositionDelta cfg (.fin c)
        (.fin (round4 (e * cfg.leverageMultiplier / p)))).delta
      = .fin (round4 (round4 (e * cfg.leverageMultiplier / p) - c))
    ∧ (∀ k : ℤ, c = (k : ℚ) / 10000 →
        round4 (round4 (e * cfg.leverageMultiplier / p) - c)
          = round4 (e * cfg.leverageMultiplier / p) - c) := by
  refine ⟨calculateTargetPosition_fin cfg e p (ne_of_gt hp), ?_,
    calculatePositionDelta_delta cfg c _, ?_⟩
  · exact round4_nonneg _ (div_nonneg (mul_nonneg he (le_of_lt hL)) (le_of_lt hp))
  · rintro k rfl
    rw [round4_den (e * cfg.leverageMultiplier / p)]
    have hcast :
        ((⌊e * cfg.leverageMultiplier / p * 10000 + 1/2⌋ : ℤ) : ℚ) / 10000 - (k : ℚ) / 10000
          = ((⌊e * cfg.leverageMultiplier / p * 10000 + 1/2⌋ - k : ℤ) : ℚ) / 10000 := by
      push_cast
      ring
    rw [hcast, round4_four_decimal]

/-- C3 witness: Scenario A, equity 12000, price 2100, leverage 3. -/
theorem C3_round4_halfup_target_delta_witness :
    calculateTargetPosition ⟨3, 1/100, true⟩ (JSN.fin 12000) (JSN.fin 2100)
      = JSN.fin (round4 (12000 * 3 / 2100)) :=
  (C3_round4_halfup_target_delta ⟨3, 1/100, true⟩ 12000 2100 15
    (by norm_num) (by norm_num) (by norm_num)).1

/-- C4 counterexample: the hold test uses the UNROUNDED difference, not
the returned `delta` field.  With current 0, target 0.00996, threshold
0.01 the decision is `hold` although the returned `delta` field rounds up
to 0.01, which is not `< 0.01`. -/
theorem C4_counterexample :
    (calculatePositionDelta ⟨3, 1/100, true⟩ (JSN.fin 0) (JSN.fin (996/100000))).action
      = TradeAction.hold
    ∧ (calculatePositionDelta ⟨3, 1/100, true⟩ (JSN.fin 0) (JSN.fin (996/100000))).delta
      = JSN.fin (1/100)
    ∧ ¬ (|(1 : ℚ)/100| < 1/100) := by
  refine ⟨?_, ?_,
    by rw [abs_of_nonneg (by norm_num : (0 : ℚ) ≤ 1/100)]; exact lt_irrefl _⟩
  · rw [calculatePositionDelta_action_hold]
    rw [abs_of_nonneg (by norm_num : (0 : ℚ) ≤ 996/100000 - 0)]
    norm_num
  · rw [calculatePositionDelta_delta]
    norm_num [round4]

/-- C4 (amended): the decision satisfies `action = hold ⟺
|target − current| < threshold` where `target − current` is the UNROUNDED
difference (the returned `delta` field is that difference rounded to 4
decimals); otherwise `action = buy` exactly when `target − current > 0`
and `action = sell` exactly when `target − current ≤ 0`. -/
theorem C4_action_from_unrounded_delta (cfg : TradingConfig) (c t : ℚ) :
    ((calculatePositionDelta cfg (.fin c) (.fin t)).action = .hold
      ↔ |t - c| < cfg.minAdjustmentSize)
    ∧ ((calculatePositionDelta cfg (.fin c) (.fin t)).action = .buy
      ↔ cfg.minAdjustmentSize ≤ |t - c| ∧ 0 < t - c)
    ∧ ((calculatePositionDelta cfg (.fin c) (.fin t)).action = .sell
      ↔ cfg.minAdjustmentSize ≤ |t - c| ∧ t - c ≤ 0)
    ∧ (calculatePositionDelta cfg (.fin c) (.fin t)).delta = .fin (round4 (t - c)) :=
  ⟨calculatePositionDelta_action_hold cfg c t, calculatePositionDelta_action_buy cfg c t,
   calculatePositionDelta_action_sell cfg c t, calculatePositionDelta_delta cfg c t⟩

theorem needsAdjustment_of_action_ne_hold (cfg : TradingConfig) (c t : JSN)
    (h : (calculatePositionDelta cfg c t).action ≠ .hold) :
    (calculatePositionDelta cfg c t).needsAdjustment = true := by
  cases hb : ((t.sub c).jabs.jge (JSN.fin cfg.minAdjustmentSize)) with
  | true => simp [calculatePositionDelta, hb]
  | false => exact absurd (by simp [calculatePositionDelta, hb]) h

/-- C5 (confirmed): if one of the three fetches fails, `executeRebalancing`
returns the all-zero failed `TradeLog` carrying the failure message and
submits no order.  The hypothesis states that `msg` is the first failure in
`Promise.all` argument order (equity, price, position). -/
theorem C5_fetch_failure_zeroed_record (cfg : TradingConfig)
    (equityR priceR positionR : Except String JSN)
    (placeOrderR : Except String String) (msg : String)
    (h : equityR = .error msg
      ∨ ((∃ e, equityR = .ok e) ∧ priceR = .error msg)
      ∨ ((∃ e, equityR = .ok e) ∧ (∃ p, priceR = .ok p) ∧ positionR = .error msg)) :
    executeRebalancing cfg equityR priceR positionR placeOrderR
      = ({ success := false
           tradeLog := createTradeLog (.fin 0) (.fin 0) (.fin 0) (.fin 0) (.fin 0) .hold
             none none (some false) (some msg)
           error := some msg }, []) := by
  rcases h with rfl | ⟨⟨e, rfl⟩, rfl⟩ | ⟨⟨e, rfl⟩, ⟨p, rfl⟩, rfl⟩ <;> rfl

/-- C5 witness: a failing equity fetch with the price and position fetches
succeeding. -/
theorem C5_fetch_failure_zeroed_record_witness :
    executeRebalancing ⟨3, 1/100, true⟩ (.error "OKX API Error: timeout")
      (.ok (.fin 2100)) (.ok (.fin 15)) (.ok "orderId-1")
      = ({ success := false
           tradeLog := createTradeLog (.fin 0) (.fin 0) (.fin 0) (.fin 0) (.fin 0) .hold
             none none (some false) (some "OKX API Error: timeout")
           error := some "OKX API Error: timeout" }, []) :=
  C5_fetch_failure_zeroed_record ⟨3, 1/100, true⟩ _ _ _ _ _ (Or.inl rfl)

/-- C6 (confirmed): when the decision is not `hold` and `placeOrder`
fails, exactly one order is submitted (no retry) and the returned record
keeps the fetched snapshot and the computed decision, with
`success = false` and the error message captured. -/
theorem C6_order_failure_no_retry (cfg : TradingConfig) (eqv prv pov : JSN)
    (msg : String)
    (hact : (calculatePositionDelta cfg pov
        (calculateTargetPosition cfg eqv prv)).action ≠ .hold) :
    (executeRebalancing cfg (.ok eqv) (.ok prv) (.ok pov) (.error msg)).2
      = [{ side := (calculatePositionDelta cfg pov
              (calculateTargetPosition cfg eqv prv)).action
           sz := (calculatePositionDelta cfg pov
              (calculateTargetPosition cfg eqv prv)).delta.jabs }]
    ∧ (executeRebalancing cfg (.ok eqv) (.ok prv) (.ok pov) (.error msg)).1.success = false
    ∧ (executeRebalancing cfg (.ok eqv) (.ok prv) (.ok pov)
        (.error msg)).1.tradeLog.success = false
    ∧ (executeRebalancing cfg (.ok eqv) (.ok prv) (.ok pov)
        (.error msg)).1.tradeLog.error = some msg
    ∧ (executeRebalancing cfg (.ok eqv) (.ok prv) (.ok pov) (.error msg)).1.error = some msg
    ∧ (executeRebalancing cfg (.ok eqv) (.ok prv) (.ok pov)
        (.error msg)).1.tradeLog.assetPrice = prv
    ∧ (executeRebalancing cfg (.ok eqv) (.ok prv) (.ok pov)
        (.error msg)).1.tradeLog.accountEquity = eqv
    ∧ (executeRebalancing cfg (.ok eqv) (.ok prv) (.ok pov)
        (.error msg)).1.tradeLog.currentPosition = pov
    ∧ (executeRebalancing cfg (.ok eqv) (.ok prv) (.ok pov)
        (.error msg)).1.tradeLog.targetPosition = calculateTargetPosition cfg eqv prv
    ∧ (executeRebalancing cfg (.ok eqv) (.ok prv) (.ok pov)
        (.error msg)).1.tradeLog.delta
      = (calculatePositionDelta cfg pov (calculateTargetPosition cfg eqv prv)).delta
    ∧ (executeRebalancing cfg (.ok eqv) (.ok prv) (.ok pov)
        (.error msg)).1.tradeLog.action
      = (calculatePositionDelta cfg pov (calculateTargetPosition cfg eqv prv)).action := by
  have hadj := needsAdjustment_of_action_ne_hold cfg pov
    (calculateTargetPosition cfg eqv prv) hact
  simp [executeRebalancing, executePositionAdjustment, createTradeLog, hadj, hact]

/-- C6 witness: Scenario A inputs with a failing `placeOrder`. -/
theorem C6_order_failure_no_retry_witness :
    (executeRebalancing ⟨3, 1/100, true⟩ (.ok (.fin 12000)) (.ok (.fin 2100))
        (.ok (.fin 15)) (.error "OKX API Error: insufficient margin")).1.success = false :=
  (C6_order_failure_no_retry ⟨3, 1/100, true⟩ (.fin 12000) (.fin 2100) (.fin 15)
    "OKX API Error: insufficient margin" (by
      have htg : calculateTargetPosition ⟨3, 1/100, true⟩ (.fin 12000) (.fin 2100)
          = .fin (171429/10000) := by
        rw [calculateTargetPosition_fin _ _ _ (by norm_num)]
        norm_num [round4]
      rw [htg]
      intro hcontra
      rw [calculatePositionDelta_action_hold] at hcontra
      rw [abs_of_nonneg (by norm_num : (0 : ℚ) ≤ 171429/10000 - 15)] at hcontra
      norm_num at hcontra)).2.1

/-- C1 (code bug): `executeRebalancing` never consults the dry-run flag.
With `dryRun = true` and Scenario A inputs (equity 12000, price 2100,
leverage 3, current 15, threshold 0.01) an order is still submitted to
`placeOrder`. -/
theorem C1_dry_run_still_places_order :
    (⟨3, 1/100, true⟩ : TradingConfig).dryRun = true
    ∧ (executeRebalancing ⟨3, 1/100, true⟩ (.ok (.fin 12000)) (.ok (.fin 2100))
        (.ok (.fin 15)) (.ok "orderId-1")).2
      = [{ side := .buy, sz := .fin (21429/10000) }] := by
  refine ⟨rfl, ?_⟩
  have htg : calculateTargetPosition ⟨3, 1/100, true⟩ (.fin 12000) (.fin 2100)
      = .fin (171429/10000) := by
    rw [calculateTargetPosition_fin _ _ _ (by norm_num)]
    norm_num [round4]
  have hdec : calculatePositionDelta ⟨3, 1/100, true⟩ (.fin 15) (.fin (171429/10000))
      = { delta := .fin (21429/10000), needsAdjustment := true, action := .buy } := by
    norm_num [calculatePositionDelta, JSN.sub, JSN.jabs, JSN.jge, JSN.jgt,
      JSN.mul, JSN.jround, JSN.div]
  simp only [executeRebalancing, htg, hdec, executePositionAdjustment]
  simp [JSN.jabs]
  intro hlt
  norm_num at hlt

/-- C2 (code bug): there is no price validation and no calculation-error
path.  With price 0 (and Scenario A equity/position/leverage) the code
computes an infinite target, decides `buy`, submits an order of infinite
size, and returns a record with `success = true` and no error — instead
of failing with a `CalculationError` and placing no order. -/
theorem C2_price_zero_not_failed :
    (executeRebalancing ⟨3, 1/100, true⟩ (.ok (.fin 12000)) (.ok (.fin 0))
        (.ok (.fin 15)) (.ok "orderId-1")).1.success = true
    ∧ (executeRebalancing ⟨3, 1/100, true⟩ (.ok (.fin 12000)) (.ok (.fin 0))
        (.ok (.fin 15)) (.ok "orderId-1")).1.tradeLog.error = none
    ∧ (executeRebalancing ⟨3, 1/100, true⟩ (.ok (.fin 12000)) (.ok (.fin 0))
        (.ok (.fin 15)) (.ok "orderId-1")).2
      = [{ side := .buy, sz := JSN.posInf }] := by
  have htg : calculateTargetPosition ⟨3, 1/100, true⟩ (.fin 12000) (.fin 0)
      = JSN.posInf := by
    norm_num [calculateTargetPosition, JSN.mul, JSN.div, JSN.jround]
  have hdec : calculatePositionDelta ⟨3, 1/100, true⟩ (.fin 15) JSN.posInf
      = { delta := JSN.posInf, needsAdjustment := true, action := .buy } := by
    norm_num [calculatePositionDelta, JSN.sub, JSN.jabs, JSN.jge, JSN.jgt,
      JSN.mul, JSN.jround, JSN.div]
  simp only [executeRebalancing, htg, hdec, executePositionAdjustment, createTradeLog]
  simp [JSN.jabs]

/-!  Scheduler theorems. -/

theorem executionCount_marked (targetHour targetMinute d : Nat) (ts : List Tick)
    (h : ∀ t ∈ ts, t.date = d) :
    executionCount targetHour targetMinute (some d) ts = 0 := by
  induction ts with
  | nil => rfl
  | cons t ts ih =>
    have hd : t.date = d := h t (List.mem_cons_self t ts)
    have hskip : shouldExecuteNow (some d) targetHour targetMinute t = false := by
      simp [shouldExecuteNow, hd]
    simp [executionCount, schedulerTick, hskip]
    exact ih (fun x hx => h x (List.mem_cons_of_mem t hx))

/-- C7 (confirmed): over any sequence of ticks that all fall on the same
UTC calendar date, the Orchestrator is invoked at most once; and once the
state records that date as last-executed, every tick on that date is
skipped. -/
theorem C7_at_most_once_per_date (targetHour targetMinute d : Nat)
    (lastExecutionDate : Option Nat) (ts : List Tick)
    (h : ∀ t ∈ ts, t.date = d) :
    executionCount targetHour targetMinute lastExecutionDate ts ≤ 1
    ∧ (∀ t : Tick, t.date = d →
        shouldExecuteNow (some d) targetHour targetMinute t = false) := by
  constructor
  · induction ts with
    | nil => exact Nat.zero_le 1
    | cons t ts ih =>
      have hd : t.date = d := h t (List.mem_cons_self t ts)
      have htail : ∀ x ∈ ts, x.date = d := fun x hx => h x (List.mem_cons_of_mem t hx)
      by_cases hex : shouldExecuteNow lastExecutionDate targetHour targetMinute t = true
      · simp only [executionCount, schedulerTick, hex, if_true]
        rw [hd, executionCount_marked targetHour targetMinute d ts htail]
      · simp only [executionCount, schedulerTick, Bool.not_eq_true] at hex ⊢
        simp only [hex, Bool.false_eq_true, if_neg (by simp : ¬ (False : Prop))]
        simpa using ih htail
  · intro t hd
    simp [shouldExecuteNow, hd]

/-- C7 witness: three ticks on day 7 around a 00:05 target, starting from
a fresh state. -/
theorem C7_at_most_once_per_date_witness :
    executionCount 0 5 none
      [⟨7, 0, 5⟩, ⟨7, 0, 6⟩, ⟨7, 0, 7⟩] ≤ 1 :=
  (C7_at_most_once_per_date 0 5 7 none [⟨7, 0, 5⟩, ⟨7, 0, 6⟩, ⟨7, 0, 7⟩]
    (by intro t ht; fin_cases ht <;> rfl)).1

/-- C8 (confirmed): when the process starts at or after today's target
time, startup records today as already executed, so every tick later that
day skips, while a tick the following day at the target time fires. -/
theorem C8_startup_catchup (targetHour targetMinute startHour startMinute d : Nat)
    (h : timeReached targetHour targetMinute startHour startMinute = true) :
    startupLastExecutionDate targetHour targetMinute d startHour startMinute = some d
    ∧ (∀ ts : List Tick, (∀ t ∈ ts, t.date = d) →
        executionCount targetHour targetMinute
          (startupLastExecutionDate targetHour targetMinute d startHour startMinute) ts = 0)
    ∧ shouldExecuteNow
        (startupLastExecutionDate targetHour targetMinute d startHour startMinute)
        targetHour targetMinute ⟨d + 1, targetHour, targetMinute⟩ = true := by
  have hs : startupLastExecutionDate targetHour targetMinute d startHour startMinute
      = some d := by
    simp [startupLastExecutionDate, h]
  refine ⟨hs, ?_, ?_⟩
  · intro ts hts
    rw [hs]
    exact executionCount_marked targetHour targetMinute d ts hts
  · rw [hs]
    simp [shouldExecuteNow, timeReached, Nat.succ_ne_self d]

/-- C8 witness: target 00:05 UTC, process start at 00:10 the same day. -/
theorem C8_startup_catchup_witness :
    startupLastExecutionDate 0 5 7 0 10 = some 7
    ∧ shouldExecuteNow (startupLastExecutionDate 0 5 7 0 10) 0 5 ⟨8, 0, 5⟩ = true :=
  ⟨(C8_startup_catchup 0 5 0 10 7 (by decide)).1,
   (C8_startup_catchup 0 5 0 10 7 (by decide)).2.2⟩

/-!  Position lookup theorems. -/

/-- C9 (confirmed): for a matching long swap position, `getPosition`
returns the raw contract count when the instrument-metadata lookup fails,
and contract count times the per-contract value when it succeeds. -/
theorem C9_swap_metadata_fallback (instId : String) (positions : List PositionEntry)
    (position : PositionEntry) (info : InstrumentInfo) (msg : String)
    (hfind : positions.find? (fun p => p.instId == instId && p.posSide == "long")
        = some position)
    (hswap : position.instType = "SWAP") :
    getPosition instId positions (.error msg) = position.pos
    ∧ getPosition instId positions (.ok info) = position.pos * info.ctVal := by
  cases positions with
  | nil => simp at hfind
  | cons q qs =>
    constructor <;> simp [getPosition, hfind, hswap]

/-- C9 witness: a two-contract long ETH swap position with `ctVal` 0.1. -/
theorem C9_swap_metadata_fallback_witness :
    getPosition "ETH-USDT-SWAP"
      [{ instId := "ETH-USDT-SWAP", posSide := "long", instType := "SWAP", pos := 2 }]
      (.error "Instrument ETH-USDT-SWAP not found") = 2
    ∧ getPosition "ETH-USDT-SWAP"
      [{ instId := "ETH-USDT-SWAP", posSide := "long", instType := "SWAP", pos := 2 }]
      (.ok { ctVal := 1/10 }) = 2 * (1/10) :=
  C9_swap_metadata_fallback "ETH-USDT-SWAP"
    [{ instId := "ETH-USDT-SWAP", posSide := "long", instType := "SWAP", pos := 2 }]
    { instId := "ETH-USDT-SWAP", posSide := "long", instType := "SWAP", pos := 2 }
    { ctVal := 1/10 } "Instrument ETH-USDT-SWAP not found" (by simp) rfl

/-- C10 (confirmed): when no position entry matches the instrument with a
long side (in particular when the exchange reports no positions at all),
`getPosition` and `getPositionContracts` return 0 rather than failing. -/
theorem C10_no_matching_position_zero (instId : String)
    (positions : List PositionEntry) (instrumentR : Except String InstrumentInfo)
    (hfind : positions.find? (fun p => p.instId == instId && p.posSide == "long")
        = none) :
    getPosition instId positions instrumentR = 0
    ∧ getPositionContracts instId positions = 0 := by
  cases positions with
  | nil => constructor <;> rfl
  | cons q qs =>
    constructor <;> simp [getPosition, getPositionContracts, hfind]

/-- C10 witness: a short position on another instrument does not match. -/
theorem C10_no_matching_position_zero_witness :
    getPosition "ETH-USDT-SWAP"
      [{ instId := "BTC-USDT-SWAP", posSide := "short", instType := "SWAP", pos := 5 }]
      (.ok { ctVal := 1/10 }) = 0
    ∧ getPositionContracts "ETH-USDT-SWAP"
      [{ instId := "BTC-USDT-SWAP", posSide := "short", instType := "SWAP", pos := 5 }] = 0 :=
  C10_no_matching_position_zero "ETH-USDT-SWAP"
    [{ instId := "BTC-USDT-SWAP", posSide := "short", instType := "SWAP", pos := 5 }]
    (.ok { ctVal := 1/10 }) (by simp)
